import Mathlib

set_option maxRecDepth 2000

/-!
Verification of the geo-ai-monitor backend against its specification.

The development shallowly embeds the Python sources:

* `backend/geospatial.py` : the index engine (`get_analysis`, `encode_image`,
  the `EVALSCRIPTS` table, `NoDataAvailableException`);
* `backend/tasks.py` and `backend/celery_worker.py` : the two revisions of the
  worker task `run_analysis_task` writing to the in-memory `tasks_db`;
* `backend/main.py` : the cached endpoint `generate_ai_response`, its cache-key
  derivation and its Redis read/write protocol.

Machine floats are modelled by exact rationals; rasters are lists of
`Option ℚ` pixels where `none` stands for a NaN (no-data) sample; the
upstream imagery and summarization services are black-box function
parameters, as the specification treats them.
-/

/-- Values stored in the result dictionary built by `get_analysis`:
strings (dates, upper-cased analysis type), numbers (means, change
percentage), and encoded preview images. The PNG/base64 container is out of
scope per the specification; a preview is identified by its pixel bytes. -/
inductive RVal where
  | str (s : String)
  | q (x : ℚ)
  | img (bytes : List ℕ)
deriving DecidableEq

/-- Exceptions that can escape `get_analysis`:
`valueError` models `raise ValueError("Invalid analysis type specified.")`
(geospatial.py line 58), `noDataAvailable` models
`raise NoDataAvailableException(...)` (line 80), and `upstreamError` models an
exception raised by the sentinelhub `get_data()` calls (network, auth, ...),
carrying that exception's message. -/
inductive GeoError where
  | valueError (msg : String)
  | noDataAvailable (msg : String)
  | upstreamError (msg : String)
deriving DecidableEq

/-- Keys of the `EVALSCRIPTS` dictionary (geospatial.py lines 16-39). The
script bodies select upstream bands and are upstream configuration, out of
scope; `EVALSCRIPTS.get(analysis_type)` is `None` exactly when the kind is not
in this list. -/
def EVALSCRIPTS : List String := ["ndvi", "ndwi"]

/-- Model of `np.nanmean`: the mean of the non-NaN pixels, `none` (NaN) when
every pixel is NaN. -/
def nanmean (r : List (Option ℚ)) : Option ℚ :=
  let vs := r.filterMap id
  if vs.isEmpty then none else some (vs.sum / (vs.length : ℚ))

/-- Model of Python `round` to an integer: round half to even. -/
def pyRoundInt (q : ℚ) : ℤ :=
  let f := Int.floor q
  let r := q - f
  if r < 1/2 then f
  else if 1/2 < r then f + 1
  else if f % 2 = 0 then f else f + 1

/-- Model of Python `round(x, ndigits)` over exact rationals. -/
def pyRound (ndigits : ℕ) (q : ℚ) : ℚ :=
  (pyRoundInt (q * 10 ^ ndigits) : ℚ) / 10 ^ ndigits

/-- Model of `np.clip(v, -1, 1)`. -/
def clip1 (v : ℚ) : ℚ := max (-1) (min 1 v)

/-- Model of `encode_image` (geospatial.py lines 41-48). The function first
overwrites the NaN pixels of the buffer it was handed with `-1`
(`image_array[nan_mask] = -1`), then scales `clip(v,-1,1) * 127.5 + 127.5`
into an 8-bit byte (`astype(np.uint8)` truncates, here a floor since the
value is non-negative). It returns the pixel bytes of the preview together
with the final contents of the buffer that was passed in, making the
in-place mutation of that buffer observable. -/
def encode_image (image_array : List (Option ℚ)) : List ℕ × List (Option ℚ) :=
  let arr := image_array.map (fun p => some (p.getD (-1)))
  let bytes := arr.map (fun p => (Int.floor (clip1 (p.getD 0) * (255/2) + 255/2)).toNat)
  (bytes, arr)

/-- Model of `np.copy`: a fresh buffer holding equal contents. The value is
the same list; freshness means writes to the copy are not writes to the
original, which is reflected where the copy is consumed (`preview_of`). -/
def np_copy (r : List (Option ℚ)) : List (Option ℚ) := r

/-- The preview step of `get_analysis` (geospatial.py lines 92-93):
`encode_image(np.copy(image_from))`. The first component is the preview
bytes; the second is the contents of the raster the caller holds after the
call: `encode_image` mutates only the fresh copy, so the caller's raster is
returned unchanged. -/
def preview_of (r : List (Option ℚ)) : List ℕ × List (Option ℚ) :=
  ((encode_image (np_copy r)).1, r)

/-- Model of `get_analysis` (geospatial.py lines 50-96). `fetch` is the
black-box Imagery Client keyed by date (the bbox and evalscript of the two
`SentinelHubRequest`s are fixed across the two calls); it returns a raster or
the message of the exception it raises. The second component of the result
counts how many imagery requests were performed. The evalscript check
happens before any fetch; both dates are fetched (even when equal); the
NaN check on the two means happens after both fetches. -/
def get_analysis (fetch : String → Except String (List (Option ℚ)))
    (bbox_coords : List ℚ) (from_date to_date analysis_type : String) :
    Except GeoError (List (String × RVal)) × ℕ :=
  if analysis_type ∈ EVALSCRIPTS then
    match fetch from_date with
    | .error m => (.error (.upstreamError m), 1)
    | .ok image_from =>
      match fetch to_date with
      | .error m => (.error (.upstreamError m), 2)
      | .ok image_to =>
        match nanmean image_from, nanmean image_to with
        | some mean_from, some mean_to =>
          let change : ℚ :=
            if |mean_from| > 1/1000000 then (mean_to - mean_from) / |mean_from| * 100 else 0
          (.ok [("from_date_str", .str from_date),
                ("to_date_str", .str to_date),
                ("mean_" ++ analysis_type ++ "_from", .q (pyRound 4 mean_from)),
                ("mean_" ++ analysis_type ++ "_to", .q (pyRound 4 mean_to)),
                ("change_percentage", .q (pyRound 2 change)),
                ("image_from", .img (encode_image (np_copy image_from)).1),
                ("image_to", .img (encode_image (np_copy image_to)).1),
                ("analysis_type", .str analysis_type.toUpper)], 2)
        | _, _ =>
          (.error (.noDataAvailable
            "No satellite data found for one or both dates, likely due to cloud cover."), 2)
  else
    (.error (.valueError "Invalid analysis type specified."), 0)

/-- Lookup in the (insertion-ordered) result dictionary. -/
def dict_get : List (String × RVal) → String → Option RVal
  | [], _ => none
  | (k, v) :: rest, key => if k = key then some v else dict_get rest key

/-- Task status words written to `tasks_db`. `queued` never appears in the
source writes; it is part of the lifecycle vocabulary of the specification
and of the allowed transition chain. -/
inductive TaskStatus where
  | queued
  | processing
  | completed
  | failed
deriving DecidableEq

/-- Which `except` branch of `run_analysis_task` (tasks.py) produced a
failure: the dedicated `NoDataAvailableException` handler (lines 37-42) or
the catch-all `Exception` handler (lines 43-48). -/
inductive CaughtKind where
  | noDataAvailable
  | internalError
deriving DecidableEq

/-- One value of `tasks_db[task_id]` as written by tasks.py: the status word
plus the `result` key (completion) or the `error` kind and message
(failure). -/
structure TaskRecord where
  status : TaskStatus
  result : Option (List (String × RVal))
  error : Option (CaughtKind × String)
deriving DecidableEq

/-- Model of `run_analysis_task` (tasks.py lines 21-50): the sequence of
values assigned to `tasks_db[task_id]`, in program order. The first write is
the `processing` record; the single further write is the terminal record
chosen by the try/except: success stores the result, a
`NoDataAvailableException` stores its own message, and any other exception
stores the fixed string `"An unexpected server error occurred."`. The
function then returns normally (returning the last record), so the
exception never escapes the task body. -/
def run_analysis_task (fetch : String → Except String (List (Option ℚ)))
    (bbox : List ℚ) (from_date to_date analysis_type : String) : List TaskRecord :=
  [⟨.processing, none, none⟩,
   match (get_analysis fetch bbox from_date to_date analysis_type).1 with
   | .ok result_data => ⟨.completed, some result_data, none⟩
   | .error (.noDataAvailable msg) => ⟨.failed, none, some (.noDataAvailable, msg)⟩
   | .error (.valueError _) =>
       ⟨.failed, none, some (.internalError, "An unexpected server error occurred.")⟩
   | .error (.upstreamError _) =>
       ⟨.failed, none, some (.internalError, "An unexpected server error occurred.")⟩]

/-- The statuses observed in the task store over the lifetime of one claimed
task, in order. -/
def statusTrace (fetch : String → Except String (List (Option ℚ)))
    (bbox : List ℚ) (from_date to_date analysis_type : String) : List TaskStatus :=
  (run_analysis_task fetch bbox from_date to_date analysis_type).map (fun r => r.status)

/-- Rank of a status along the forward lifecycle; both terminal statuses
share the top rank. -/
def statusRank : TaskStatus → ℕ
  | .queued => 0
  | .processing => 1
  | .completed => 2
  | .failed => 2

/-- Model of Python `str(e)` on the exceptions of this code base: the
message the exception was constructed with. -/
def str_of_exc : GeoError → String
  | .valueError msg => msg
  | .noDataAvailable msg => msg
  | .upstreamError msg => msg

/-- One value of `tasks_db[task_id]` as written by celery_worker.py: there
the `error` key holds just `str(e)`. -/
structure TaskRecordCW where
  status : TaskStatus
  result : Option (List (String × RVal))
  error : Option String
deriving DecidableEq

/-- Model of `run_analysis_task` in celery_worker.py (lines 16-29): same
two-write shape as tasks.py, but a single catch-all handler stores the raw
exception text `str(e)` as the client-visible error for every exception. -/
def run_analysis_task_cw (fetch : String → Except String (List (Option ℚ)))
    (bbox : List ℚ) (from_date to_date analysis_type : String) : List TaskRecordCW :=
  [⟨.processing, none, none⟩,
   match (get_analysis fetch bbox from_date to_date analysis_type).1 with
   | .ok result_data => ⟨.completed, some result_data, none⟩
   | .error e => ⟨.failed, none, some (str_of_exc e)⟩]

/-- Pydantic model `BoundingBox` (main.py lines 87-91). -/
structure BoundingBox where
  north : ℚ
  south : ℚ
  east : ℚ
  west : ℚ
deriving DecidableEq

/-- Pydantic model `GeoAnalysisRequest` (main.py lines 93-96). -/
structure GeoAnalysisRequest where
  bbox : BoundingBox
  start_date : String
  end_date : String
deriving DecidableEq

/-- Pydantic model `GeoAnalysisResponse` (main.py lines 98-102). -/
structure GeoAnalysisResponse where
  ai_response : String
  image_url_1 : Option String
  image_url_2 : Option String
  cached : Bool
deriving DecidableEq

/-- The fixed prompt of `generate_ai_response` (main.py lines 257-262). -/
def gemini_fixed_prompt : String :=
  "Analyze the provided satellite image(s) of this geographical area. " ++
  "If two images are provided, compare them and describe any significant changes related to " ++
  "urban development, deforestation, agricultural expansion, water body changes, " ++
  "or other notable human activities or natural shifts. Provide a concise summary of your observations."

/-- The cache-key derivation of `generate_ai_response` (main.py lines
264-270). `strHash` models the built-in `hash` on strings, which CPython
salts with a per-process seed (`PYTHONHASHSEED`); each process therefore
supplies its own `strHash`. The numeric renderings of `str(...)` on the
(per-process-stable) bbox floats are modelled by `toString` on the exact
rationals. -/
def cache_key (strHash : String → ℤ) (request : GeoAnalysisRequest) : String :=
  "geo_ai_response:" ++ String.intercalate "_"
    [toString request.bbox.north, toString request.bbox.south,
     toString request.bbox.east, toString request.bbox.west,
     request.start_date, request.end_date,
     toString (strHash gemini_fixed_prompt)]

/-- JSON values appearing in the serialized `GeoAnalysisResponse`. -/
inductive JVal where
  | jstr (s : String)
  | jbool (b : Bool)
  | jnull
deriving DecidableEq

/-- JSON encoding of an optional string field. -/
def jsonOfOpt : Option String → JVal
  | some s => .jstr s
  | none => .jnull

/-- Model of `final_response.model_dump_json()` followed by `json.loads` on
the reader side: the full field dictionary of the response, including the
`cached` field. -/
def model_dump_json (r : GeoAnalysisResponse) : List (String × JVal) :=
  [("ai_response", .jstr r.ai_response),
   ("image_url_1", jsonOfOpt r.image_url_1),
   ("image_url_2", jsonOfOpt r.image_url_2),
   ("cached", .jbool r.cached)]

/-- Field lookup in a parsed JSON object. -/
def jfield : List (String × JVal) → String → JVal
  | [], _ => .jnull
  | (k, v) :: rest, key => if k = key then v else jfield rest key

/-- String view of a JSON value (pydantic coercion for the success path). -/
def strOfJ : JVal → String
  | .jstr s => s
  | _ => ""

/-- Optional-string view of a JSON value. -/
def optOfJ : JVal → Option String
  | .jstr s => some s
  | _ => none

/-- Model of `GeoAnalysisResponse(**response_data, cached=True)` (main.py
line 278). Python call semantics raise `TypeError` when a keyword appears
both in the unpacked dictionary and explicitly; `response_data` parsed from
`model_dump_json` output always carries a `"cached"` key, so this
constructor call raises whenever it is reached on data this server wrote. -/
def response_from_fields_cached_true (fields : List (String × JVal)) :
    Except String GeoAnalysisResponse :=
  if fields.any (fun kv => kv.1 == "cached") then
    .error "TypeError: got multiple values for keyword argument cached"
  else
    .ok ⟨strOfJ (jfield fields "ai_response"),
         optOfJ (jfield fields "image_url_1"),
         optOfJ (jfield fields "image_url_2"),
         true⟩

/-- State visible to `generate_ai_response`: the Redis cache contents (one
entry per key) and a counter of Imagery Client calls made so far, the
call-count stub of the specification. -/
structure ServerState where
  cache : List (String × List (String × JVal))
  imageryCalls : ℕ
deriving DecidableEq

/-- Model of `redis_client.get`. -/
def redis_get : List (String × List (String × JVal)) → String →
    Option (List (String × JVal))
  | [], _ => none
  | (k, v) :: rest, key => if k = key then some v else redis_get rest key

/-- Model of `redis_client.set`: replaces any previous entry under the key,
keeping at most one entry per key. -/
def redis_set (c : List (String × List (String × JVal))) (key : String)
    (v : List (String × JVal)) : List (String × List (String × JVal)) :=
  (key, v) :: c.filter (fun kv => !(kv.1 == key))

/-- Model of the endpoint `generate_ai_response` (main.py lines 250-378) on
its success path. `fetchImage` is `get_sentinel_image_data` (returning the
base64 payload and the display URL), `describe` is the Gemini call mapping
the base64 payloads to the summary text, `strHash` is the per-process string
hash. The handler first derives the cache key and consults Redis; a stored
entry makes it attempt `GeoAnalysisResponse(**response_data, cached=True)`,
whose `TypeError` is swallowed by the surrounding `except` (main.py lines
279-280), after which execution falls through to the miss path. The miss
path fetches imagery for the start date, fetches the end date only when the
dates differ, builds the response with `cached=False`, and stores its full
field dump in Redis. -/
def generate_ai_response (strHash : String → ℤ)
    (fetchImage : BoundingBox → String → String × String)
    (describe : List String → String)
    (st : ServerState) (request : GeoAnalysisRequest) :
    GeoAnalysisResponse × ServerState :=
  let key := cache_key strHash request
  let cached_attempt : Option GeoAnalysisResponse :=
    match redis_get st.cache key with
    | some response_data =>
      match response_from_fields_cached_true response_data with
      | .ok r => some r
      | .error _ => none
    | none => none
  match cached_attempt with
  | some r => (r, st)
  | none =>
    let fetched_1 := fetchImage request.bbox request.start_date
    let calls_1 := st.imageryCalls + 1
    let fetched_2 : Option (String × String) :=
      if request.start_date ≠ request.end_date then
        some (fetchImage request.bbox request.end_date)
      else none
    let calls_2 := if request.start_date ≠ request.end_date then calls_1 + 1 else calls_1
    let ai_text := describe (fetched_1.1 ::
      (match fetched_2 with | some p => [p.1] | none => []))
    let final_response : GeoAnalysisResponse :=
      ⟨ai_text, some fetched_1.2, fetched_2.map (fun p => p.2), false⟩
    (final_response, ⟨redis_set st.cache key (model_dump_json final_response), calls_2⟩)

theorem pyRound_zero (n : ℕ) : pyRound n 0 = 0 := by
  simp [pyRound, pyRoundInt]

/-- C1: for every analysis whose two raster means are defined, the reported
from/to values are those means rounded to 4 decimal places, and the
reported change_percentage equals the relative change rounded to 2 decimal
places when the absolute from-mean exceeds 1e-6, and equals 0 otherwise. -/
theorem C1_rounding_and_change_percentage
    (fetch : String → Except String (List (Option ℚ))) (bbox : List ℚ)
    (from_date to_date analysis_type : String)
    (image_from image_to : List (Option ℚ)) (m_from m_to : ℚ)
    (hkind : analysis_type ∈ EVALSCRIPTS)
    (hf : fetch from_date = .ok image_from)
    (ht : fetch to_date = .ok image_to)
    (hmf : nanmean image_from = some m_from)
    (hmt : nanmean image_to = some m_to) :
    ∃ r, (get_analysis fetch bbox from_date to_date analysis_type).1 = .ok r ∧
      dict_get r ("mean_" ++ analysis_type ++ "_from") = some (.q (pyRound 4 m_from)) ∧
      dict_get r ("mean_" ++ analysis_type ++ "_to") = some (.q (pyRound 4 m_to)) ∧
      dict_get r "change_percentage" =
        some (.q (if |m_from| > 1/1000000
                  then pyRound 2 ((m_to - m_from) / |m_from| * 100) else 0)) := by
  have hch : pyRound 2 (if (1000000 : ℚ)⁻¹ < |m_from|
      then (m_to - m_from) / |m_from| * 100 else 0) =
      if (1000000 : ℚ)⁻¹ < |m_from| then pyRound 2 ((m_to - m_from) / |m_from| * 100) else 0 := by
    rw [apply_ite (pyRound 2), pyRound_zero]
  simp only [EVALSCRIPTS, List.mem_cons, List.mem_singleton, List.not_mem_nil, or_false] at hkind
  rcases hkind with h | h <;> subst h <;>
    simp [get_analysis, EVALSCRIPTS, hf, ht, hmf, hmt, dict_get] <;>
    exact hch

/-- Concrete Imagery Client stub used by witnesses: the from date yields a
single pixel of value 1e-7, any other date a single pixel of value 0.5. -/
def fetchW : String → Except String (List (Option ℚ)) :=
  fun d => if d = "2020-01-01" then .ok [some (1/10000000)] else .ok [some (1/2)]

theorem C1_rounding_and_change_percentage_witness :
    ((("ndvi" : String) ∈ EVALSCRIPTS) ∧
      fetchW "2020-01-01" = .ok [some ((1:ℚ)/10000000)] ∧
      fetchW "2020-06-01" = .ok [some ((1:ℚ)/2)] ∧
      nanmean [some ((1:ℚ)/10000000)] = some (1/10000000) ∧
      nanmean [some ((1:ℚ)/2)] = some (1/2)) ∧
    (∃ r, (get_analysis fetchW [] "2020-01-01" "2020-06-01" "ndvi").1 = .ok r ∧
      dict_get r ("mean_" ++ "ndvi" ++ "_from") = some (.q (pyRound 4 (1/10000000))) ∧
      dict_get r ("mean_" ++ "ndvi" ++ "_to") = some (.q (pyRound 4 (1/2))) ∧
      dict_get r "change_percentage" =
        some (.q (if |(1:ℚ)/10000000| > 1/1000000
                  then pyRound 2 (((1:ℚ)/2 - 1/10000000) / |(1:ℚ)/10000000| * 100) else 0))) := by
  refine ⟨⟨by decide, by with_unfolding_all rfl, by with_unfolding_all rfl,
           by simp [nanmean], by simp [nanmean]⟩, ?_⟩
  exact C1_rounding_and_change_percentage fetchW [] "2020-01-01" "2020-06-01" "ndvi"
    [some ((1:ℚ)/10000000)] [some ((1:ℚ)/2)] (1/10000000) (1/2)
    (by decide) (by with_unfolding_all rfl) (by with_unfolding_all rfl)
    (by simp [nanmean]) (by simp [nanmean])

/-- C2: for every claimed task, the sequence of status values written to
the task store is Processing followed by exactly one terminal status, a
subsequence of Queued, Processing, terminal; ranks strictly increase (no
backwards transition), Processing precedes the terminal status, and nothing
follows the terminal write. -/
theorem C2_status_lifecycle
    (fetch : String → Except String (List (Option ℚ))) (bbox : List ℚ)
    (from_date to_date analysis_type : String) :
    ∃ t, (t = TaskStatus.completed ∨ t = TaskStatus.failed) ∧
      statusTrace fetch bbox from_date to_date analysis_type = [.processing, t] ∧
      List.Sublist (statusTrace fetch bbox from_date to_date analysis_type)
        [.queued, .processing, t] ∧
      List.Chain' (fun a b => statusRank a < statusRank b)
        (statusTrace fetch bbox from_date to_date analysis_type) := by
  cases hga : (get_analysis fetch bbox from_date to_date analysis_type).1 with
  | ok r =>
    refine ⟨.completed, Or.inl rfl, ?_, ?_, ?_⟩ <;>
      simp [statusTrace, run_analysis_task, hga, statusRank]
  | error e =>
    cases e with
    | valueError m =>
      refine ⟨.failed, Or.inr rfl, ?_, ?_, ?_⟩ <;>
        simp [statusTrace, run_analysis_task, hga, statusRank]
    | noDataAvailable m =>
      refine ⟨.failed, Or.inr rfl, ?_, ?_, ?_⟩ <;>
        simp [statusTrace, run_analysis_task, hga, statusRank]
    | upstreamError m =>
      refine ⟨.failed, Or.inr rfl, ?_, ?_, ?_⟩ <;>
        simp [statusTrace, run_analysis_task, hga, statusRank]

deriving instance DecidableEq for Except

/-- Process A string hash: a process whose salted hash of the prompt is 0. -/
def strHash0 : String → ℤ := fun _ => 0

/-- Process B string hash: a process whose salted hash of the prompt is 1. -/
def strHash1 : String → ℤ := fun _ => 1

/-- Imagery Client stub returning a fixed payload and display URL. -/
def fetchImage0 : BoundingBox → String → String × String := fun _ _ => ("imgdata", "url")

/-- Summarization stub returning a fixed text. -/
def describe0 : List String → String := fun _ => "summary"

/-- A concrete request with two distinct dates. -/
def req0 : GeoAnalysisRequest := ⟨⟨1, 0, 1, 0⟩, "2020-01-01", "2020-06-01"⟩

/-- A concrete request whose two dates are equal (single-image mode). -/
def reqEq0 : GeoAnalysisRequest := ⟨⟨1, 0, 1, 0⟩, "2020-01-01", "2020-01-01"⟩

/-- C3: the cache key of the very same request differs between two processes
whose (per-process salted) string hashes of the fixed prompt differ, because
the key embeds `str(hash(gemini_fixed_prompt))`; the fingerprint is not a
pure function of the request fields across processes. -/
theorem C3_cache_key_differs_across_processes :
    cache_key strHash0 req0 ≠ cache_key strHash1 req0 := by
  with_unfolding_all decide

/-- First submission of `req0` against an empty cache. -/
def run1 : GeoAnalysisResponse × ServerState :=
  generate_ai_response strHash0 fetchImage0 describe0 ⟨[], 0⟩ req0

/-- Second, identical submission, against the state the first one left. -/
def run2 : GeoAnalysisResponse × ServerState :=
  generate_ai_response strHash0 fetchImage0 describe0 run1.2 req0

/-- C4: two identical submissions processed one after the other. The first
makes 2 imagery calls and stores its response; the second makes 2 further
imagery calls (4 total) instead of 0 and returns `cached = false`, because
reconstructing the cached entry raises the duplicate-keyword `TypeError`
(the stored dump already carries `"cached"`), which the surrounding
`except` swallows before the handler falls through to the miss path. -/
theorem C4_second_submission_refetches :
    run1.2.imageryCalls = 2 ∧ run2.2.imageryCalls = 4 ∧ run2.1.cached = false ∧
      response_from_fields_cached_true (model_dump_json run1.1) =
        .error "TypeError: got multiple values for keyword argument cached" := by
  with_unfolding_all decide

/-- C7: on a cache miss the handler calls the Imagery Client once for the
start date and, only when the two dates differ, once more for the end date:
one fetch in single-image mode, two otherwise. -/
theorem C7_fetch_count_on_cache_miss
    (strHash : String → ℤ) (fetchImage : BoundingBox → String → String × String)
    (describe : List String → String) (st : ServerState) (request : GeoAnalysisRequest)
    (hmiss : redis_get st.cache (cache_key strHash request) = none) :
    (generate_ai_response strHash fetchImage describe st request).2.imageryCalls =
      if request.start_date = request.end_date then st.imageryCalls + 1
      else st.imageryCalls + 2 := by
  by_cases h : request.start_date = request.end_date <;>
    simp [generate_ai_response, hmiss, h]

theorem C7_fetch_count_on_cache_miss_witness :
    (redis_get (ServerState.mk [] 0).cache (cache_key strHash0 reqEq0) = none) ∧
    (generate_ai_response strHash0 fetchImage0 describe0 ⟨[], 0⟩ reqEq0).2.imageryCalls =
      (if reqEq0.start_date = reqEq0.end_date then (ServerState.mk [] 0).imageryCalls + 1
       else (ServerState.mk [] 0).imageryCalls + 2) :=
  ⟨rfl, C7_fetch_count_on_cache_miss strHash0 fetchImage0 describe0 ⟨[], 0⟩ reqEq0 rfl⟩

/-- C5: when both rasters have undefined means (every pixel no-data), the
task terminates Failed through the dedicated `NoDataAvailableException`
handler, with that exception kind and its message; no record of the task is
ever Completed, so no fabricated numeric result is reported. -/
theorem C5_all_nodata_fails_with_no_data_kind
    (fetch : String → Except String (List (Option ℚ))) (bbox : List ℚ)
    (from_date to_date analysis_type : String)
    (image_from image_to : List (Option ℚ))
    (hkind : analysis_type ∈ EVALSCRIPTS)
    (hf : fetch from_date = .ok image_from)
    (ht : fetch to_date = .ok image_to)
    (hmf : nanmean image_from = none)
    (hmt : nanmean image_to = none) :
    run_analysis_task fetch bbox from_date to_date analysis_type =
      [⟨.processing, none, none⟩,
       ⟨.failed, none, some (.noDataAvailable,
         "No satellite data found for one or both dates, likely due to cloud cover.")⟩] ∧
    ∀ rec ∈ run_analysis_task fetch bbox from_date to_date analysis_type,
      rec.status ≠ TaskStatus.completed := by
  have hga : (get_analysis fetch bbox from_date to_date analysis_type).1 =
      .error (.noDataAvailable
        "No satellite data found for one or both dates, likely due to cloud cover.") := by
    unfold get_analysis
    rw [if_pos hkind]
    simp [hf, ht, hmf, hmt]
  refine ⟨by simp [run_analysis_task, hga], ?_⟩
  intro rec hrec
  simp [run_analysis_task, hga] at hrec
  rcases hrec with h | h <;> subst h <;> simp

/-- Imagery Client stub whose every raster is entirely no-data. -/
def fetchNoData : String → Except String (List (Option ℚ)) := fun _ => .ok [none]

theorem C5_all_nodata_fails_with_no_data_kind_witness :
    ((("ndvi" : String) ∈ EVALSCRIPTS) ∧
      fetchNoData "2020-01-01" = .ok [none] ∧
      fetchNoData "2020-06-01" = .ok [none] ∧
      nanmean [none] = none) ∧
    (run_analysis_task fetchNoData [] "2020-01-01" "2020-06-01" "ndvi" =
      [⟨.processing, none, none⟩,
       ⟨.failed, none, some (.noDataAvailable,
         "No satellite data found for one or both dates, likely due to cloud cover.")⟩] ∧
     ∀ rec ∈ run_analysis_task fetchNoData [] "2020-01-01" "2020-06-01" "ndvi",
       rec.status ≠ TaskStatus.completed) := by
  refine ⟨⟨by decide, rfl, rfl, by decide⟩, ?_⟩
  exact C5_all_nodata_fails_with_no_data_kind fetchNoData [] "2020-01-01" "2020-06-01" "ndvi"
    [none] [none] (by decide) rfl rfl (by decide) (by decide)

/-- C6 counterexample: in celery_worker.py the catch-all handler stores
`str(e)` verbatim, so when the upstream fetch raises an exception whose text
carries a credential value, that internal exception detail becomes the
client-visible error message. -/
theorem C6_celery_worker_exposes_exception_text :
    (run_analysis_task_cw (fun _ => Except.error "401 Unauthorized: client_secret=SECRET123")
        [] "2020-01-01" "2020-06-01" "ndvi").getLast? =
      some ⟨.failed, none, some "401 Unauthorized: client_secret=SECRET123"⟩ := by
  decide

/-- C6 (amended): both worker revisions convert every exception into a
Failed record and return normally (the write sequence is always Processing
followed by one terminal record), and in tasks.py the catch-all branch
reports the fixed string "An unexpected server error occurred." whatever the
internal exception text was, so no internal detail reaches the client
there. -/
theorem C6_worker_converts_exceptions
    (fetch : String → Except String (List (Option ℚ))) (bbox : List ℚ)
    (from_date to_date analysis_type : String) :
    (∃ rec : TaskRecord,
      run_analysis_task fetch bbox from_date to_date analysis_type =
        [⟨.processing, none, none⟩, rec] ∧
      (rec.status = TaskStatus.completed ∨ rec.status = TaskStatus.failed)) ∧
    (∃ recCW : TaskRecordCW,
      run_analysis_task_cw fetch bbox from_date to_date analysis_type =
        [⟨.processing, none, none⟩, recCW] ∧
      (recCW.status = TaskStatus.completed ∨ recCW.status = TaskStatus.failed)) ∧
    (∀ msg : String,
      run_analysis_task (fun _ => .error msg) bbox from_date to_date analysis_type =
        [⟨.processing, none, none⟩,
         ⟨.failed, none, some (.internalError, "An unexpected server error occurred.")⟩]) := by
  refine ⟨?_, ?_, ?_⟩
  · cases hga : (get_analysis fetch bbox from_date to_date analysis_type).1 with
    | ok r =>
      exact ⟨⟨.completed, some r, none⟩, by simp [run_analysis_task, hga], Or.inl rfl⟩
    | error e => cases e with
      | valueError m =>
        exact ⟨⟨.failed, none, some (.internalError, "An unexpected server error occurred.")⟩,
          by simp [run_analysis_task, hga], Or.inr rfl⟩
      | noDataAvailable m =>
        exact ⟨⟨.failed, none, some (.noDataAvailable, m)⟩,
          by simp [run_analysis_task, hga], Or.inr rfl⟩
      | upstreamError m =>
        exact ⟨⟨.failed, none, some (.internalError, "An unexpected server error occurred.")⟩,
          by simp [run_analysis_task, hga], Or.inr rfl⟩
  · cases hga : (get_analysis fetch bbox from_date to_date analysis_type).1 with
    | ok r =>
      exact ⟨⟨.completed, some r, none⟩, by simp [run_analysis_task_cw, hga], Or.inl rfl⟩
    | error e =>
      exact ⟨⟨.failed, none, some (str_of_exc e)⟩,
        by simp [run_analysis_task_cw, hga], Or.inr rfl⟩
  · intro msg
    by_cases hk : analysis_type ∈ EVALSCRIPTS
    · have hga : (get_analysis (fun _ => .error msg) bbox from_date to_date analysis_type).1 =
          .error (.upstreamError msg) := by
        unfold get_analysis
        rw [if_pos hk]
      simp [run_analysis_task, hga]
    · have hga : (get_analysis (fun _ => .error msg) bbox from_date to_date analysis_type).1 =
          .error (.valueError "Invalid analysis type specified.") := by
        unfold get_analysis
        rw [if_neg hk]
      simp [run_analysis_task, hga]

/-- Companion fact: `encode_image` itself does overwrite the no-data pixels
of the buffer it is handed with the sentinel -1, which is why `get_analysis`
passes `np.copy` of each raster; the composed preview step leaves the
original raster intact. -/
theorem encode_image_overwrites_nodata :
    (encode_image [none, some (1/2)]).2 = [some (-1), some ((1:ℚ)/2)] ∧
    (preview_of [none, some (1/2)]).2 = [none, some ((1:ℚ)/2)] := by
  with_unfolding_all decide

/-- C8: preview generation (encode of a fresh `np.copy` of the raster, as
performed by `get_analysis`) is deterministic, equal input arrays give equal
encoded outputs, and after the call every element of the raster the caller
holds, including its no-data pixels, is unchanged. -/
theorem C8_preview_deterministic_nonmutating
    (a b : List (Option ℚ)) (hab : a = b) :
    (preview_of a).1 = (preview_of b).1 ∧ (preview_of a).2 = a := by
  subst hab
  exact ⟨rfl, rfl⟩

theorem C8_preview_deterministic_nonmutating_witness :
    (([none, some (1/2)] : List (Option ℚ)) = [none, some (1/2)]) ∧
    ((preview_of [none, some (1/2)]).1 = (preview_of [none, some (1/2)]).1 ∧
     (preview_of [none, some (1/2)]).2 = [none, some ((1:ℚ)/2)]) :=
  ⟨rfl, C8_preview_deterministic_nonmutating [none, some (1/2)] [none, some (1/2)] rfl⟩

/-- C9 counterexample: a request with the unknown analysis kind "thermal"
does produce a task: the worker writes a Processing record for it and then
marks it Failed through the catch-all handler, so the task comes into
existence rather than the request being rejected before task creation. -/
theorem C9_unknown_kind_still_creates_task :
    run_analysis_task (fun _ => Except.ok [some 0]) [0, 0, 1, 1]
        "2020-01-01" "2020-02-01" "thermal" =
      [⟨.processing, none, none⟩,
       ⟨.failed, none, some (.internalError, "An unexpected server error occurred.")⟩] := by
  decide

/-- C9 (amended): an unknown analysis kind is rejected by `get_analysis`
(`ValueError`) before any imagery fetch (fetch count 0), but only inside the
worker: the task is created, passes through Processing, and terminates
Failed with the generic internal-error message. -/
theorem C9_unknown_kind_fails_inside_worker
    (fetch : String → Except String (List (Option ℚ))) (bbox : List ℚ)
    (from_date to_date analysis_type : String)
    (hk : analysis_type ∉ EVALSCRIPTS) :
    get_analysis fetch bbox from_date to_date analysis_type =
      (.error (.valueError "Invalid analysis type specified."), 0) ∧
    run_analysis_task fetch bbox from_date to_date analysis_type =
      [⟨.processing, none, none⟩,
       ⟨.failed, none, some (.internalError, "An unexpected server error occurred.")⟩] := by
  have h1 : get_analysis fetch bbox from_date to_date analysis_type =
      (.error (.valueError "Invalid analysis type specified."), 0) := by
    unfold get_analysis
    rw [if_neg hk]
  refine ⟨h1, ?_⟩
  simp [run_analysis_task, h1]

theorem C9_unknown_kind_fails_inside_worker_witness :
    (("thermal" : String) ∉ EVALSCRIPTS) ∧
    (get_analysis (fun _ => Except.ok [some 0]) [0, 0, 1, 1]
        "2020-01-01" "2020-02-01" "thermal" =
      (.error (.valueError "Invalid analysis type specified."), 0) ∧
    run_analysis_task (fun _ => Except.ok [some 0]) [0, 0, 1, 1]
        "2020-01-01" "2020-02-01" "thermal" =
      [⟨.processing, none, none⟩,
       ⟨.failed, none, some (.internalError, "An unexpected server error occurred.")⟩]) :=
  ⟨by decide, C9_unknown_kind_fails_inside_worker (fun _ => Except.ok [some 0]) [0, 0, 1, 1]
    "2020-01-01" "2020-02-01" "thermal" (by decide)⟩

/-- C10: on success the result dictionary carries, in insertion order, the
two kind-dependent mean keys together with the fixed keys, and its
analysis_type entry is the upper-cased kind. -/
theorem C10_result_keys_depend_on_kind
    (fetch : String → Except String (List (Option ℚ))) (bbox : List ℚ)
    (from_date to_date analysis_type : String)
    (image_from image_to : List (Option ℚ)) (m_from m_to : ℚ)
    (hkind : analysis_type ∈ EVALSCRIPTS)
    (hf : fetch from_date = .ok image_from)
    (ht : fetch to_date = .ok image_to)
    (hmf : nanmean image_from = some m_from)
    (hmt : nanmean image_to = some m_to) :
    ∃ r, (get_analysis fetch bbox from_date to_date analysis_type).1 = .ok r ∧
      r.map Prod.fst = ["from_date_str", "to_date_str",
        "mean_" ++ analysis_type ++ "_from", "mean_" ++ analysis_type ++ "_to",
        "change_percentage", "image_from", "image_to", "analysis_type"] ∧
      dict_get r "analysis_type" = some (.str analysis_type.toUpper) := by
  simp only [EVALSCRIPTS, List.mem_cons, List.mem_singleton, List.not_mem_nil, or_false] at hkind
  rcases hkind with h | h <;> subst h <;>
    simp [get_analysis, EVALSCRIPTS, hf, ht, hmf, hmt, dict_get]

theorem C10_result_keys_depend_on_kind_witness :
    ((("ndvi" : String) ∈ EVALSCRIPTS) ∧
      fetchW "2020-01-01" = .ok [some ((1:ℚ)/10000000)] ∧
      fetchW "2020-06-01" = .ok [some ((1:ℚ)/2)] ∧
      nanmean [some ((1:ℚ)/10000000)] = some (1/10000000) ∧
      nanmean [some ((1:ℚ)/2)] = some (1/2)) ∧
    (∃ r, (get_analysis fetchW [] "2020-01-01" "2020-06-01" "ndvi").1 = .ok r ∧
      r.map Prod.fst = ["from_date_str", "to_date_str",
        "mean_" ++ "ndvi" ++ "_from", "mean_" ++ "ndvi" ++ "_to",
        "change_percentage", "image_from", "image_to", "analysis_type"] ∧
      dict_get r "analysis_type" = some (.str ("ndvi" : String).toUpper)) := by
  refine ⟨⟨by decide, by with_unfolding_all rfl, by with_unfolding_all rfl,
           by simp [nanmean], by simp [nanmean]⟩, ?_⟩
  exact C10_result_keys_depend_on_kind fetchW [] "2020-01-01" "2020-06-01" "ndvi"
    [some ((1:ℚ)/10000000)] [some ((1:ℚ)/2)] (1/10000000) (1/2)
    (by decide) (by with_unfolding_all rfl) (by with_unfolding_all rfl)
    (by simp [nanmean]) (by simp [nanmean])
